import Mathlib

/-!
Shallow embedding of scripts/generate_kernel_ref_data.py.

The script reads a fixed slice of an atomistic-structure file, traverses a
Cartesian grid of hyperparameters in eight nested loops, calls an external
descriptor/kernel library on every combination, accumulates result bundles,
and serializes everything to one binary file at the end.  The external
library (ase.io.read, SphericalInvariant, Kernel, ubjson) is abstracted as
an environment of opaque functions; raising is modelled with Except, file
writes with an explicit state list.
-/

/-- A schema-less Python-style value, as serialized into the ubjson record. -/
inductive PyObj where
  | pyStr (s : String)
  | pyInt (n : Int)
  | pyRat (q : Rat)
  | pyBool (b : Bool)
  | pyList (xs : List PyObj)
  | pyDict (fields : List (String × PyObj))

mutual

/-- All string values occurring anywhere inside a PyObj value. -/
def PyObj.strings : PyObj → List String
  | PyObj.pyStr s => [s]
  | PyObj.pyInt _ => []
  | PyObj.pyRat _ => []
  | PyObj.pyBool _ => []
  | PyObj.pyList xs => pyListStrings xs
  | PyObj.pyDict fs => pyFieldStrings fs

/-- String values inside a list of PyObj values. -/
def pyListStrings : List PyObj → List String
  | [] => []
  | x :: xs => x.strings ++ pyListStrings xs

/-- String values inside the field values of a dict. -/
def pyFieldStrings : List (String × PyObj) → List String
  | [] => []
  | (_, v) :: fs => v.strings ++ pyFieldStrings fs

end

/-- The descriptor hyperparameter dictionary built at lines 67-76. -/
structure Hypers where
  interaction_cutoff : Rat
  cutoff_smooth_width : Rat
  max_radial : Nat
  max_angular : Nat
  gaussian_sigma_type : String
  gaussian_sigma_constant : Rat
  soap_type : String
  cutoff_function_type : String
  normalize : Bool
  radial_basis : String
deriving DecidableEq

/-- One kernel-specific argument set from dependant_args (line 39): a dict with a
single zeta entry. -/
structure KernelArgs where
  zeta : Nat
deriving DecidableEq

/-- The kernel hyperparameter dictionary built at lines 79-81: name and
target_type, updated with the kernel-specific arguments. -/
structure KernelHypers where
  name : String
  target_type : String
  zeta : Nat
deriving DecidableEq

/-- One point of the hyperparameter grid, carrying the nominal (pre-override)
max_angular value of the grid. -/
structure Combo where
  cutoff : Rat
  kernel_name : String
  target_type : String
  zeta : Nat
  soap_type : String
  gaussian_sigma : Rat
  max_radial : Nat
  max_angular : Nat
deriving DecidableEq

/-- Grid constant, line 26. -/
def cutoffs : List Rat := [7/2]

/-- Grid constant, line 27. -/
def gaussian_sigmas : List Rat := [1/2]

/-- Grid constant, line 28. -/
def max_radials : List Nat := [6]

/-- Grid constant, line 29. -/
def max_angulars : List Nat := [6]

/-- Grid constant, line 30. -/
def soap_types : List String := ["RadialSpectrum", "PowerSpectrum"]

/-- Input structure file path, line 32: os.path.join of the parent directory
with the relative dataset path. -/
def fn : String := "../tests/reference_data/dft-smiles_500.xyz"

/-- Path stored under the key filename, line 33; note it is not the path the
output is actually written to (line 89). -/
def fn_to_write : String := "../reference_data/dft-smiles_500.ubjson"

/-- Slice offset, line 34. -/
def start : Nat := 0

/-- Slice length, line 35. -/
def length : Nat := 5

/-- Grid constant, line 37. -/
def kernel_names : List String := ["Cosine"]

/-- Grid constant, line 38. -/
def target_types : List String := ["structure", "atom"]

/-- Kernel-specific argument table, line 39.  Its only key is the lowercase
string "cosine". -/
def dependant_args : List (String × List KernelArgs) :=
  [("cosine", [⟨1⟩, ⟨2⟩, ⟨4⟩])]

/-- The slice string passed to ase.io.read at line 53. -/
def readSlice : String := toString start ++ ":" ++ toString (start + length)

/-- The path the output file is written to, line 89. -/
def writePath : String := "../tests/reference_data/kernel_reference.ubjson"

/-- The descriptor hyperparameters built for one grid combination: the
radial-spectrum override of lines 64-65 followed by the dict literal of
lines 67-76. -/
def hypersOf (c : Combo) : Hypers :=
  { interaction_cutoff := c.cutoff,
    cutoff_smooth_width := 1/2,
    max_radial := c.max_radial,
    max_angular := if c.soap_type == "RadialSpectrum" then 0 else c.max_angular,
    gaussian_sigma_type := "Constant",
    gaussian_sigma_constant := c.gaussian_sigma,
    soap_type := c.soap_type,
    cutoff_function_type := "Cosine",
    normalize := true,
    radial_basis := "GTO" }

/-- The hyperparameter combinations in the nested-loop order of lines 54-63
(cutoff outermost, then kernel name, target type, kernel args, soap type,
gaussian sigma, max radial, max angular innermost), with the kernel-argument
list taken from the dependant_args table under its stored key "cosine".
The script itself indexes dependant_args with the capitalized kernel name
"Cosine", which raises KeyError before any combination is processed; this
list is the traversal the loop headers describe. -/
def gridCombos : List Combo :=
  cutoffs.flatMap fun cutoff =>
    kernel_names.flatMap fun kernel_name =>
      target_types.flatMap fun target_type =>
        ((List.lookup "cosine" dependant_args).getD []).flatMap fun kwargs =>
          soap_types.flatMap fun soap_type =>
            gaussian_sigmas.flatMap fun gaussian_sigma =>
              max_radials.flatMap fun max_radial =>
                max_angulars.map fun max_angular =>
                  { cutoff, kernel_name, target_type, zeta := kwargs.zeta,
                    soap_type, gaussian_sigma, max_radial, max_angular }

/-- Serialization of a kernel matrix by kk.tolist(): nested numeric lists. -/
def matToObj (kk : List (List Rat)) : PyObj :=
  PyObj.pyList (kk.map fun row => PyObj.pyList (row.map PyObj.pyRat))

/-- Serialization of a descriptor hyperparameter dict. -/
def hypersToObj (h : Hypers) : PyObj :=
  PyObj.pyDict
    [("interaction_cutoff", PyObj.pyRat h.interaction_cutoff),
     ("cutoff_smooth_width", PyObj.pyRat h.cutoff_smooth_width),
     ("max_radial", PyObj.pyInt h.max_radial),
     ("max_angular", PyObj.pyInt h.max_angular),
     ("gaussian_sigma_type", PyObj.pyStr h.gaussian_sigma_type),
     ("gaussian_sigma_constant", PyObj.pyRat h.gaussian_sigma_constant),
     ("soap_type", PyObj.pyStr h.soap_type),
     ("cutoff_function_type", PyObj.pyStr h.cutoff_function_type),
     ("normalize", PyObj.pyBool h.normalize),
     ("radial_basis", PyObj.pyStr h.radial_basis)]

/-- Serialization of one kernel-specific argument set. -/
def kernelArgsToObj (a : KernelArgs) : PyObj :=
  PyObj.pyDict [("zeta", PyObj.pyInt a.zeta)]

/-- The data record as constructed at lines 41-51, with rep_info still empty.
The filename key stores fn_to_write; the input path fn is not stored. -/
def dataInitial : List (String × PyObj) :=
  [("filename", PyObj.pyStr fn_to_write),
   ("start", PyObj.pyInt start),
   ("length", PyObj.pyInt length),
   ("cutoffs", PyObj.pyList (cutoffs.map PyObj.pyRat)),
   ("gaussian_sigmas", PyObj.pyList (gaussian_sigmas.map PyObj.pyRat)),
   ("max_radials", PyObj.pyList (max_radials.map fun n => PyObj.pyInt n)),
   ("soap_types", PyObj.pyList (soap_types.map PyObj.pyStr)),
   ("kernel_names", PyObj.pyList (kernel_names.map PyObj.pyStr)),
   ("target_types", PyObj.pyList (target_types.map PyObj.pyStr)),
   ("dependant_args",
    PyObj.pyDict (dependant_args.map fun p =>
      (p.1, PyObj.pyList (p.2.map kernelArgsToObj)))),
   ("rep_info", PyObj.pyList [])]

/-- The data record at write time (line 90): dataInitial with the accumulated
rep_info substituted in. -/
def assembleData (rep_info : List (List PyObj)) : List (String × PyObj) :=
  dataInitial.map fun p =>
    if p.1 == "rep_info" then (p.1, PyObj.pyList (rep_info.map PyObj.pyList)) else p

/-- The positional dict argument of the append call at lines 85-86:
dict(kernel_matrix=kk.tolist(), hypers_rep=copy(soap.hypers)).  It has exactly
two keys; hypers_kernel is not among them. -/
def bundleDict (kk : List (List Rat)) (resolved : Hypers) : List (String × PyObj) :=
  [("kernel_matrix", matToObj kk), ("hypers_rep", hypersToObj resolved)]

/-- A Python exception propagating out of the script. -/
inductive PyError where
  | keyError (key : String)
  | typeError (msg : String)
  | fileNotFound (path : String)
  | libraryError

/-- The message of the TypeError raised by evaluating copy() with no argument
at line 87. -/
def copyNoArgMsg : String := "copy() missing 1 required positional argument"

/-- The append statement at lines 85-87.  Python evaluates the positional
argument dict(kernel_matrix=..., hypers_rep=...) first, then the keyword
argument hypers_kernel=copy(); copy takes one positional argument, so the
bare call copy() raises TypeError and nothing is ever appended.  (Even if it
returned, list.append accepts no keyword arguments and would itself raise.) -/
def appendResultStep (kk : List (List Rat)) (resolved : Hypers) :
    Except PyError PyObj :=
  let _positional := PyObj.pyDict (bundleDict kk resolved)
  Except.error (PyError.typeError copyNoArgMsg)

/-- One file write performed by the script. -/
structure FileWrite where
  path : String
  content : PyObj

/-- The monad of the script body: Python exceptions over a log of file writes. -/
abbrev DumpM := ExceptT PyError (StateM (List FileWrite))

/-- The external world: ase.io.read plus the opaque descriptor/kernel library.
S is the type of SphericalInvariant objects, F of frame sets, V of descriptor
vector sets, K of kernel objects.  A none result models the call raising. -/
structure Env (S F V K : Type) where
  read : String → String → Option F
  sphericalInvariant : Hypers → Option S
  transform : S → F → Option V
  hypersAttr : S → Hypers
  kernelNew : S → KernelHypers → Option K
  kernelCall : K → V → Option (List (List Rat))

/-- Lift a library call that may raise. -/
def liftLib {α : Type} (o : Option α) : DumpM α :=
  match o with
  | some a => pure a
  | none => throw PyError.libraryError

/-- Append an element to the last inner list, as data[rep_info][-1].append
would. -/
def appendLast {α : Type} : List (List α) → α → List (List α)
  | [], _ => []
  | [xs], x => [xs ++ [x]]
  | xs :: rest, x => xs :: appendLast rest x

/-- The grid traversal and final write of dump_reference_json (lines 54-90),
run on an already-read frame set. -/
def dumpWithFrames {S F V K : Type} (env : Env S F V K) (frames : F) : DumpM Unit := do
  let mut rep_info : List (List PyObj) := []
  for cutoff in cutoffs do
    rep_info := rep_info ++ [[]]
    for kernel_name in kernel_names do
      for target_type in target_types do
        let args ←
          match List.lookup kernel_name dependant_args with
          | some a => pure a
          | none => throw (PyError.keyError kernel_name)
        for kwargs in args do
          for soap_type in soap_types do
            for gaussian_sigma in gaussian_sigmas do
              for max_radial in max_radials do
                for max_angular in max_angulars do
                  let hypers := hypersOf
                    { cutoff, kernel_name, target_type, zeta := kwargs.zeta,
                      soap_type, gaussian_sigma, max_radial, max_angular }
                  let soap ← liftLib (env.sphericalInvariant hypers)
                  let soap_vectors ← liftLib (env.transform soap frames)
                  let hypers_kernel : KernelHypers :=
                    { name := kernel_name, target_type := target_type,
                      zeta := kwargs.zeta }
                  let kernel ← liftLib (env.kernelNew soap hypers_kernel)
                  let kk ← liftLib (env.kernelCall kernel soap_vectors)
                  match appendResultStep kk (env.hypersAttr soap) with
                  | Except.ok bundle => rep_info := appendLast rep_info bundle
                  | Except.error e => throw e
  modify fun ws =>
    ws ++ [{ path := writePath, content := PyObj.pyDict (assembleData rep_info) }]

/-- dump_reference_json, lines 18-90: read the frame slice (raising
FileNotFoundError if the input file is missing), then traverse the grid and
write the record once at the end. -/
def dump_reference_json {S F V K : Type} (env : Env S F V K) : DumpM Unit := do
  match env.read fn readSlice with
  | none => throw (PyError.fileNotFound fn)
  | some frames => dumpWithFrames env frames

/-- Run the script body from an empty write log: the final outcome and the
list of files written. -/
def runDump {S F V K : Type} (env : Env S F V K) :
    Except PyError Unit × List FileWrite :=
  (dump_reference_json env).run.run []

/-- A Python value that may be passed to main as json_dump. -/
inductive PyValue where
  | bool (b : Bool)
  | int (n : Int)
  | str (s : String)
deriving DecidableEq

/-- Python equality json_dump == True (line 98): True is equal to itself and
to the integer 1; no string compares equal to True. -/
def pyEqTrue : PyValue → Bool
  | PyValue.bool b => b
  | PyValue.int n => n == 1
  | PyValue.str _ => false

/-- Python truthiness of a value, for contrast with equality to True. -/
def pyTruthy : PyValue → Bool
  | PyValue.bool b => b
  | PyValue.int n => n != 0
  | PyValue.str s => s != ""

/-- main, lines 95-99 (renamed main_py since Lean reserves main): invoke
dump_reference_json exactly when json_dump == True; a none result means no
action was taken. -/
def main_py {S F V K : Type} (env : Env S F V K) (json_dump : PyValue) :
    Option (Except PyError Unit × List FileWrite) :=
  if pyEqTrue json_dump then some (runDump env) else none

/-- The argparse default for the store_true flag -json_dump (line 106). -/
def argparseDefault : Bool := false

/-- Exit code of the process: 0 when main took no action or the run
succeeded, nonzero when an exception propagated. -/
def scriptExitCode (r : Option (Except PyError Unit × List FileWrite)) : Nat :=
  match r with
  | none => 0
  | some (Except.ok _, _) => 0
  | some (Except.error _, _) => 1

/-- An environment whose read fails: the input structure file is missing. -/
def emptyEnv : Env Unit Unit Unit Unit :=
  { read := fun _ _ => none,
    sphericalInvariant := fun _ => none,
    transform := fun _ _ => none,
    hypersAttr := fun _ => hypersOf ⟨7/2, "Cosine", "structure", 1, "RadialSpectrum", 1/2, 6, 6⟩,
    kernelNew := fun _ _ => none,
    kernelCall := fun _ _ => none }

/-- An environment whose read succeeds. -/
def readableEnv : Env Unit Unit Unit Unit :=
  { emptyEnv with read := fun _ _ => some () }

/-! ## General behavior lemmas -/

/-- If the input structure file is missing, the run raises before the loop and
writes nothing. -/
theorem runDump_read_none {S F V K : Type} (env : Env S F V K)
    (h : env.read fn readSlice = none) :
    runDump env = (Except.error (PyError.fileNotFound fn), []) := by
  unfold runDump dump_reference_json
  rw [h]
  rfl

/-- Whenever the read succeeds, the traversal reaches the dependant_args
lookup with the capitalized name "Cosine", whose only key is "cosine", and
raises KeyError with nothing written. -/
theorem runDump_read_some {S F V K : Type} (env : Env S F V K) (frames : F)
    (h : env.read fn readSlice = some frames) :
    runDump env = (Except.error (PyError.keyError "Cosine"), []) := by
  unfold runDump dump_reference_json
  rw [h]
  rfl

/-- Any erroring run has an empty write log: the single file write sits after
the whole grid traversal. -/
theorem runDump_error_no_write {S F V K : Type} (env : Env S F V K) (e : PyError)
    (h : (runDump env).1 = Except.error e) : (runDump env).2 = [] := by
  cases hr : env.read fn readSlice with
  | none => rw [runDump_read_none env hr]
  | some frames => rw [runDump_read_some env frames hr]

/-- The outcome of the run is a function of the read alone (the library is
never reached before the crash). -/
theorem runDump_read_determined {S F V K : Type} (env₁ env₂ : Env S F V K)
    (h : env₁.read = env₂.read) : runDump env₁ = runDump env₂ := by
  cases hr : env₂.read fn readSlice with
  | none => rw [runDump_read_none env₂ hr, runDump_read_none env₁ (by rw [h, hr])]
  | some frames =>
      rw [runDump_read_some env₂ frames hr, runDump_read_some env₁ frames (by rw [h, hr])]

/-! ## Claim theorems -/

/-- Claim C1: the result bundle built by the append statement at lines 85-87
does NOT contain the kernel hyperparameters.  The dict passed positionally to
append has exactly the two keys kernel_matrix and hypers_rep, and the
statement then evaluates copy() with no argument, raising TypeError, so the
three-component bundle the spec describes is never produced. -/
theorem claim1_append_bundle_malformed (kk : List (List Rat)) (resolved : Hypers) :
    (bundleDict kk resolved).map Prod.fst = ["kernel_matrix", "hypers_rep"] ∧
    appendResultStep kk resolved = Except.error (PyError.typeError copyNoArgMsg) :=
  ⟨rfl, rfl⟩

/-- Claim C2: for every grid combination whose descriptor kind is
RadialSpectrum, the hyperparameters built for the descriptor constructor have
max_angular equal to 0, regardless of the nominal grid value carried by the
combination. -/
theorem claim2_radial_spectrum_angular_zero (c : Combo) (hc : c ∈ gridCombos)
    (h : c.soap_type = "RadialSpectrum") : (hypersOf c).max_angular = 0 := by
  simp [hypersOf, h]

/-- Witness for C2 at the first grid combination. -/
theorem claim2_witness :
    (hypersOf ⟨7/2, "Cosine", "structure", 1, "RadialSpectrum", 1/2, 6, 6⟩).max_angular = 0 :=
  claim2_radial_spectrum_angular_zero
    ⟨7/2, "Cosine", "structure", 1, "RadialSpectrum", 1/2, 6, 6⟩
    (List.mem_cons_self _ _) rfl

/-- Claim C3: the fixed grid indeed has 1 cutoff and 12 combinations per
cutoff, but no run of dump_reference_json ever completes: whenever the input
read succeeds, the traversal raises KeyError("Cosine") at the dependant_args
lookup (its only key is "cosine") before processing any combination, so
rep_info never receives 12 bundles. -/
theorem claim3_no_successful_run {S F V K : Type} (env : Env S F V K) (frames : F)
    (h : env.read fn readSlice = some frames) :
    (runDump env).1 = Except.error (PyError.keyError "Cosine") ∧
    cutoffs.length = 1 ∧ gridCombos.length = 12 := by
  refine ⟨?_, by decide, by decide⟩
  rw [runDump_read_some env frames h]

/-- Witness for C3 at a concrete environment whose read succeeds. -/
theorem claim3_witness :
    (runDump readableEnv).1 = Except.error (PyError.keyError "Cosine") ∧
    cutoffs.length = 1 ∧ gridCombos.length = 12 :=
  claim3_no_successful_run readableEnv () rfl

/-- Claim C4: a failure at any point before the final serialization leaves no
output file: every erroring run has an empty write log, and in particular a
missing input file aborts the run before anything is written. -/
theorem claim4_failure_means_no_output {S F V K : Type} (env : Env S F V K) :
    (∀ e : PyError, (runDump env).1 = Except.error e → (runDump env).2 = []) ∧
    (env.read fn readSlice = none →
      runDump env = (Except.error (PyError.fileNotFound fn), [])) :=
  ⟨fun e he => runDump_error_no_write env e he, fun h => runDump_read_none env h⟩

/-- Witness for C4 at an environment whose input file is missing. -/
theorem claim4_witness :
    (runDump emptyEnv).2 = [] ∧
    runDump emptyEnv = (Except.error (PyError.fileNotFound fn), []) :=
  ⟨(claim4_failure_means_no_output emptyEnv).1 (PyError.fileNotFound fn) rfl,
   (claim4_failure_means_no_output emptyEnv).2 rfl⟩

/-- Claim C5: the run is deterministic.  Two runs over environments that
agree on the input read (same file contents, and by construction a
deterministic library) produce the same outcome and the same list of written
files, byte for byte. -/
theorem claim5_deterministic {S F V K : Type} (env₁ env₂ : Env S F V K)
    (h : env₁.read = env₂.read) :
    runDump env₁ = runDump env₂ ∧ (runDump env₁).2 = (runDump env₂).2 := by
  have := runDump_read_determined env₁ env₂ h
  exact ⟨this, by rw [this]⟩

/-- Witness for C5: two runs over the same environment coincide. -/
theorem claim5_witness :
    runDump readableEnv = runDump readableEnv ∧
    (runDump readableEnv).2 = (runDump readableEnv).2 :=
  claim5_deterministic readableEnv readableEnv rfl

/-- Counterexample for C6: the input filename never occurs among the string
values of the serialized record; the key filename holds fn_to_write, so the
record does not include the input filename the claim lists among the stored
generation parameters. -/
theorem claim6_counterexample : fn ∉ pyFieldStrings dataInitial := by decide

/-- Claim C6 (amended): the record has exactly the eleven claimed top-level
keys, and the generation parameters stored in it comprise the output filename
(under the key filename), the slice bounds, and the grid values, but not the
input filename. -/
theorem claim6_keys_and_params :
    dataInitial.map Prod.fst =
      ["filename", "start", "length", "cutoffs", "gaussian_sigmas", "max_radials",
       "soap_types", "kernel_names", "target_types", "dependant_args", "rep_info"] ∧
    List.lookup "filename" dataInitial = some (PyObj.pyStr fn_to_write) ∧
    List.lookup "start" dataInitial = some (PyObj.pyInt start) ∧
    List.lookup "length" dataInitial = some (PyObj.pyInt length) ∧
    List.lookup "cutoffs" dataInitial = some (PyObj.pyList (cutoffs.map PyObj.pyRat)) ∧
    List.lookup "gaussian_sigmas" dataInitial =
      some (PyObj.pyList (gaussian_sigmas.map PyObj.pyRat)) ∧
    List.lookup "max_radials" dataInitial =
      some (PyObj.pyList [PyObj.pyInt 6]) ∧
    List.lookup "soap_types" dataInitial =
      some (PyObj.pyList [PyObj.pyStr "RadialSpectrum", PyObj.pyStr "PowerSpectrum"]) ∧
    List.lookup "kernel_names" dataInitial = some (PyObj.pyList [PyObj.pyStr "Cosine"]) ∧
    List.lookup "target_types" dataInitial =
      some (PyObj.pyList [PyObj.pyStr "structure", PyObj.pyStr "atom"]) ∧
    List.lookup "dependant_args" dataInitial =
      some (PyObj.pyDict [("cosine",
        PyObj.pyList [kernelArgsToObj ⟨1⟩, kernelArgsToObj ⟨2⟩, kernelArgsToObj ⟨4⟩])]) ∧
    fn ∉ pyFieldStrings dataInitial :=
  ⟨rfl, rfl, rfl, rfl, rfl, rfl, rfl, rfl, rfl, rfl, rfl, by decide⟩

/-- Claim C7: with the flag unset (the argparse store_true default, False)
main takes no action and the process exits with code 0; with the flag set,
main invokes dump_reference_json. -/
theorem claim7_flag_gates_run {S F V K : Type} (env : Env S F V K) :
    main_py env (PyValue.bool argparseDefault) = none ∧
    scriptExitCode (main_py env (PyValue.bool argparseDefault)) = 0 ∧
    main_py env (PyValue.bool true) = some (runDump env) :=
  ⟨rfl, rfl, rfl⟩

/-- Claim C8: the loop headers enumerate the grid with cutoff outermost, then
kernel name, target type, kernel args, descriptor kind, sigma, max radial and
max angular innermost, as witnessed by the fully evaluated traversal list;
but no run ever visits a combination: any run with a readable input raises
KeyError("Cosine") before the innermost loops, so no bundle is appended. -/
theorem claim8_traversal_order_and_crash {S F V K : Type} (env : Env S F V K)
    (frames : F) (h : env.read fn readSlice = some frames) :
    gridCombos =
      [⟨7/2, "Cosine", "structure", 1, "RadialSpectrum", 1/2, 6, 6⟩,
       ⟨7/2, "Cosine", "structure", 1, "PowerSpectrum", 1/2, 6, 6⟩,
       ⟨7/2, "Cosine", "structure", 2, "RadialSpectrum", 1/2, 6, 6⟩,
       ⟨7/2, "Cosine", "structure", 2, "PowerSpectrum", 1/2, 6, 6⟩,
       ⟨7/2, "Cosine", "structure", 4, "RadialSpectrum", 1/2, 6, 6⟩,
       ⟨7/2, "Cosine", "structure", 4, "PowerSpectrum", 1/2, 6, 6⟩,
       ⟨7/2, "Cosine", "atom", 1, "RadialSpectrum", 1/2, 6, 6⟩,
       ⟨7/2, "Cosine", "atom", 1, "PowerSpectrum", 1/2, 6, 6⟩,
       ⟨7/2, "Cosine", "atom", 2, "RadialSpectrum", 1/2, 6, 6⟩,
       ⟨7/2, "Cosine", "atom", 2, "PowerSpectrum", 1/2, 6, 6⟩,
       ⟨7/2, "Cosine", "atom", 4, "RadialSpectrum", 1/2, 6, 6⟩,
       ⟨7/2, "Cosine", "atom", 4, "PowerSpectrum", 1/2, 6, 6⟩] ∧
    (runDump env).1 = Except.error (PyError.keyError "Cosine") := by
  refine ⟨rfl, ?_⟩
  rw [runDump_read_some env frames h]

/-- Witness for C8 at a concrete environment whose read succeeds. -/
theorem claim8_witness :
    gridCombos =
      [⟨7/2, "Cosine", "structure", 1, "RadialSpectrum", 1/2, 6, 6⟩,
       ⟨7/2, "Cosine", "structure", 1, "PowerSpectrum", 1/2, 6, 6⟩,
       ⟨7/2, "Cosine", "structure", 2, "RadialSpectrum", 1/2, 6, 6⟩,
       ⟨7/2, "Cosine", "structure", 2, "PowerSpectrum", 1/2, 6, 6⟩,
       ⟨7/2, "Cosine", "structure", 4, "RadialSpectrum", 1/2, 6, 6⟩,
       ⟨7/2, "Cosine", "structure", 4, "PowerSpectrum", 1/2, 6, 6⟩,
       ⟨7/2, "Cosine", "atom", 1, "RadialSpectrum", 1/2, 6, 6⟩,
       ⟨7/2, "Cosine", "atom", 1, "PowerSpectrum", 1/2, 6, 6⟩,
       ⟨7/2, "Cosine", "atom", 2, "RadialSpectrum", 1/2, 6, 6⟩,
       ⟨7/2, "Cosine", "atom", 2, "PowerSpectrum", 1/2, 6, 6⟩,
       ⟨7/2, "Cosine", "atom", 4, "RadialSpectrum", 1/2, 6, 6⟩,
       ⟨7/2, "Cosine", "atom", 4, "PowerSpectrum", 1/2, 6, 6⟩] ∧
    (runDump readableEnv).1 = Except.error (PyError.keyError "Cosine") :=
  claim8_traversal_order_and_crash readableEnv () rfl

/-- Claim C9: the radial-spectrum override does not leak into other
combinations: every PowerSpectrum combination keeps its nominal grid
max_angular (which is 6 for every grid member), because the override is
re-evaluated per combination from the loop variable. -/
theorem claim9_power_spectrum_no_leak (c : Combo) (hc : c ∈ gridCombos)
    (h : c.soap_type = "PowerSpectrum") :
    (hypersOf c).max_angular = c.max_angular ∧ c.max_angular = 6 := by
  constructor
  · simp [hypersOf, h]
  · fin_cases hc <;> simp_all

/-- Witness for C9 at the second grid combination, a PowerSpectrum point
immediately after a RadialSpectrum point in the traversal. -/
theorem claim9_witness :
    (hypersOf ⟨7/2, "Cosine", "structure", 1, "PowerSpectrum", 1/2, 6, 6⟩).max_angular =
      (⟨7/2, "Cosine", "structure", 1, "PowerSpectrum", 1/2, 6, 6⟩ : Combo).max_angular ∧
    (⟨7/2, "Cosine", "structure", 1, "PowerSpectrum", 1/2, 6, 6⟩ : Combo).max_angular = 6 :=
  claim9_power_spectrum_no_leak
    ⟨7/2, "Cosine", "structure", 1, "PowerSpectrum", 1/2, 6, 6⟩
    (List.mem_cons_of_mem _ (List.mem_cons_self _ _)) rfl

/-- Claim C10: main triggers the run exactly when json_dump compares equal to
True under Python equality; a truthy non-boolean value such as a non-empty
string does not compare equal to True and causes no action. -/
theorem claim10_strict_equality_gate {S F V K : Type} (env : Env S F V K)
    (v : PyValue) :
    (main_py env v).isSome = pyEqTrue v ∧
    (pyTruthy (PyValue.str "yes") = true ∧ main_py env (PyValue.str "yes") = none) := by
  refine ⟨?_, rfl, rfl⟩
  unfold main_py
  cases hv : pyEqTrue v <;> simp [hv]
